import Mathlib

/-!
Shallow embedding of src/server.js from the videosoo repository: the
obfuscated-id codec (LinkEncoder), the health prober (LinkHealthChecker),
the refresh cycle (refreshAllLinks), the id allocator (generateLinkId),
the upload and status HTTP handlers, and the GitHub publish data
(GitHubManager.updateLinksFile).  External effects (the network reached by
axios, the ytdl resolution backend, wall-clock time, the random number
generator) are passed in as explicit parameters.
-/

/-! ### Base64, as performed by Node Buffer -/

/-- The standard base64 alphabet, used by Node for
`Buffer.toString(&quot;base64&quot;)` and `Buffer.from(s, &quot;base64&quot;)`. -/
def base64Chars : List Char :=
  ['A', 'B', 'C', 'D', 'E', 'F', 'G', 'H', 'I', 'J', 'K', 'L', 'M',
   'N', 'O', 'P', 'Q', 'R', 'S', 'T', 'U', 'V', 'W', 'X', 'Y', 'Z',
   'a', 'b', 'c', 'd', 'e', 'f', 'g', 'h', 'i', 'j', 'k', 'l', 'm',
   'n', 'o', 'p', 'q', 'r', 's', 't', 'u', 'v', 'w', 'x', 'y', 'z',
   '0', '1', '2', '3', '4', '5', '6', '7', '8', '9', '+', '/']

/-- Character of a 6-bit digit. -/
def b64char (i : Nat) : Char := base64Chars.getD i '?'

/-- Index of a character in the base64 alphabet, none for characters
outside the alphabet (including the padding character). -/
def b64Index (c : Char) : Option Nat := base64Chars.findIdx? (fun d => d == c)

/-- Base64 encoding of a byte list with padding: models
`Buffer.from(bytes).toString(&quot;base64&quot;)`. -/
def encode3 : List Nat → List Char
  | a :: b :: c :: rest =>
      b64char (a / 4) :: b64char ((a % 4) * 16 + b / 16) ::
      b64char ((b % 16) * 4 + c / 64) :: b64char (c % 64) :: encode3 rest
  | [a, b] =>
      [b64char (a / 4), b64char ((a % 4) * 16 + b / 16), b64char ((b % 16) * 4), '=']
  | [a] =>
      [b64char (a / 4), b64char ((a % 4) * 16), '=', '=']
  | [] => []

/-- Byte list recovered from a list of 6-bit digit values: a full group of
four digits yields three bytes, a leftover of three digits yields two
bytes, a leftover of two digits yields one byte, a single leftover digit
yields nothing.  This is how Node consumes the valid digits of a base64
string. -/
def decode4 : List Nat → List Nat
  | a :: b :: c :: d :: rest =>
      (a * 4 + b / 16) :: ((b % 16) * 16 + c / 4) :: ((c % 4) * 64 + d) :: decode4 rest
  | [a, b, c] => [a * 4 + b / 16, (b % 16) * 16 + c / 4]
  | [a, b] => [a * 4 + b / 16]
  | _ => []

/-- The 6-bit digits of a byte list, without padding markers (helper used
to relate `encode3` to `decode4`). -/
def toDigits : List Nat → List Nat
  | a :: b :: c :: rest =>
      (a / 4) :: ((a % 4) * 16 + b / 16) :: ((b % 16) * 4 + c / 64) :: (c % 64) :: toDigits rest
  | [a, b] => [a / 4, (a % 4) * 16 + b / 16, (b % 16) * 4]
  | [a] => [a / 4, (a % 4) * 16]
  | [] => []

/-- `encoded.replace(/=/g, &quot;&quot;)`: removes every padding character. -/
def stripEq (l : List Char) : List Char := l.filter (fun c => c != '=')

/-- Bytes of an ASCII string: for ids made of ASCII characters this is
exactly `Buffer.from(id)` (UTF-8 agrees with the code points below 128). -/
def asciiBytes (s : String) : List Nat := s.data.map Char.toNat

/-- `Buffer.from(s, &quot;base64&quot;)` in Node: a total, lenient decoder.
Characters outside the base64 alphabet (including padding) are skipped,
and the remaining 6-bit digits are consumed in groups.  This conversion
never throws. -/
def nodeB64DecodeBytes (s : String) : List Nat := decode4 (s.data.filterMap b64Index)

namespace LinkEncoder

/-- `LinkEncoder.encode` (server.js lines 33-38): base64-encode the id,
remove the padding, append a random suffix.  The code draws the suffix as
`Math.random().toString(36).substring(2, 5)`; here the drawn suffix is the
explicit parameter `rnd`.  Note the code does not guarantee the drawn
suffix has length 3: for example `Math.random() = 0.5` gives
`(0.5).toString(36) = &quot;0.i&quot;` and hence the one-character suffix
`&quot;i&quot;`, and `Math.random() = 0` gives the empty suffix. -/
def encode (id : String) (rnd : String) : String :=
  String.mk (stripEq (encode3 (asciiBytes id)) ++ rnd.data)

/-- `encodedId.slice(0, -3) + &quot;==&quot;` (server.js line 42): JS slice
with a negative end clamps at 0, which Nat subtraction models exactly. -/
def restorePadded (encodedId : String) : String :=
  String.mk (encodedId.data.take (encodedId.data.length - 3) ++ ['=', '='])

/-- The bytes of the Buffer produced inside `LinkEncoder.decode`
(server.js lines 40-48). -/
def decodeBytes (encodedId : String) : List Nat :=
  nodeB64DecodeBytes (restorePadded encodedId)

/-- `LinkEncoder.decode` (server.js lines 40-48): the try/catch returns
null on an exception, but `Buffer.from(s, &quot;base64&quot;)` is total in
Node (it silently skips invalid characters), so the catch branch is dead
code and the result is always `some`. -/
def decode (encodedId : String) : Option (List Nat) :=
  some (decodeBytes encodedId)

end LinkEncoder

/-! ### Data model -/

/-- One tracked link entry (the value stored in `linkDatabase`, shaped as
in the upload handler, server.js lines 414-422).  Dates are modelled as
Nat timestamps. -/
structure LinkEntry where
  originalUrl : String
  streamUrl : Option String
  title : String
  quality : String
  createdAt : Nat
  lastRefreshed : Nat
  isValid : Bool
  deriving DecidableEq

/-- The in-memory registry `linkDatabase`: a JS object, modelled as an
association list in insertion order (object keys such as mov001 are
non-numeric, so JS iterates them in insertion order). -/
abbrev Registry := List (String × LinkEntry)

/-- JS truthiness of a nullable string: null and the empty string are
falsy. -/
def strTruthy : Option String → Bool
  | some s => !s.isEmpty
  | none => false

/-- JS `a || b` where a is a nullable string: b is used when a is null or
empty. -/
def jsOrStr (a : Option String) (b : String) : String :=
  match a with
  | some s => if s.isEmpty then b else s
  | none => b

/-! ### Health prober -/

/-- Behavior of the remote host backing a stream URL: it either answers
with an HTTP status, or the transport fails (connection error, timeout
after 10 s, and so on) with an error message. -/
inductive RemoteOutcome where
  | responds (status : Nat)
  | transportFails (msg : String)
  deriving DecidableEq

/-- Return value of `LinkHealthChecker.checkLink` (server.js lines
108-123). -/
structure HealthResult where
  isActive : Bool
  status : Nat
  error : Option String
  deriving DecidableEq

namespace LinkHealthChecker

/-- `LinkHealthChecker.checkLink` (server.js lines 108-123).
`axios.head(url, ... timeout: 10000 ...)` resolves only for a 2xx status
(the axios default `validateStatus`); any other status rejects with an
error carrying `error.response.status`, and a transport failure rejects
with no response, in which case `error.response?.status || 0` is 0. -/
def checkLink (remote : String → RemoteOutcome) (streamUrl : String) : HealthResult :=
  match remote streamUrl with
  | .responds s =>
      if 200 ≤ s ∧ s < 300 then
        { isActive := s == 200, status := s, error := none }
      else
        { isActive := false, status := s,
          error := some ("Request failed with status code " ++ toString s) }
  | .transportFails msg =>
      { isActive := false, status := 0, error := some msg }

end LinkHealthChecker

/-- One record of the `brokenLinks` list built by
`LinkHealthChecker.checkAllLinks` (server.js lines 138-143 and 153-158). -/
structure BrokenLink where
  id : String
  title : String
  reason : String
  originalUrl : String
  deriving DecidableEq

/-- One record of `results.details` in `checkAllLinks`. -/
structure CheckDetail where
  id : String
  title : String
  status : String
  lastChecked : Nat
  deriving DecidableEq

/-- The `results` accumulator of `checkAllLinks`. -/
structure CheckResults where
  total : Nat
  active : Nat
  broken : Nat
  details : List CheckDetail
  deriving DecidableEq

namespace LinkHealthChecker

/-- `LinkHealthChecker.checkAllLinks` (server.js lines 125-171): iterate
the registry in order; an entry with a falsy `streamUrl` is recorded as
broken without probing (and without a detail record, the loop continues);
otherwise the entry is probed with `checkLink` and recorded as active or
broken, the broken reason being the error message or `HTTP status`. -/
def checkAllLinks (remote : String → RemoteOutcome) (now : Nat) :
    Registry → List BrokenLink × CheckResults
  | [] => ([], { total := 0, active := 0, broken := 0, details := [] })
  | (linkId, linkData) :: rest =>
      let tail := checkAllLinks remote now rest
      if !(strTruthy linkData.streamUrl) then
        ({ id := linkId, title := linkData.title, reason := "No stream URL",
           originalUrl := linkData.originalUrl } :: tail.1,
         { total := tail.2.total + 1, active := tail.2.active,
           broken := tail.2.broken + 1, details := tail.2.details })
      else
        let hc := checkLink remote (linkData.streamUrl.getD "")
        if hc.isActive then
          (tail.1,
           { total := tail.2.total + 1, active := tail.2.active + 1,
             broken := tail.2.broken,
             details := { id := linkId, title := linkData.title, status := "active",
                          lastChecked := now } :: tail.2.details })
        else
          ({ id := linkId, title := linkData.title,
             reason := jsOrStr hc.error ("HTTP " ++ toString hc.status),
             originalUrl := linkData.originalUrl } :: tail.1,
           { total := tail.2.total + 1, active := tail.2.active,
             broken := tail.2.broken + 1,
             details := { id := linkId, title := linkData.title, status := "broken",
                          lastChecked := now } :: tail.2.details })

end LinkHealthChecker

/-! ### Resolution client -/

/-- Return value of `YouTubeConverter.convertToStreamLink` (server.js
lines 71-103): on success `streamUrl` is the fresh stream URL and
`isValid` is true; on any ytdl failure the catch branch returns
`streamUrl = null`, `isValid = false` with the message captured. -/
structure ConvertResult where
  streamUrl : Option String
  title : String
  quality : String
  expiresAt : Option Nat
  isValid : Bool
  error : Option String
  deriving DecidableEq

/-- Return value of `YouTubeConverter.getVideoInfo` (server.js lines
53-69). -/
structure VideoInfo where
  title : String
  duration : Nat
  isAvailable : Bool
  error : Option String
  deriving DecidableEq

/-! ### Refresh cycle -/

/-- The body of the re-resolution loop for one entry (server.js lines
331-339): if `originalUrl` is truthy, resolve it; when the resolution is
valid overwrite `streamUrl` and `lastRefreshed`, otherwise leave the entry
untouched.  The resolution backend is the parameter `resolve`. -/
def reResolveEntry (resolve : String → ConvertResult) (now : Nat) (e : LinkEntry) :
    LinkEntry :=
  if e.originalUrl ≠ "" then
    let nd := resolve e.originalUrl
    if nd.isValid then { e with streamUrl := nd.streamUrl, lastRefreshed := now } else e
  else e

/-- The whole re-resolution loop (server.js lines 331-339): every entry is
visited, none is added or removed. -/
def reResolveAll (resolve : String → ConvertResult) (now : Nat) (db : Registry) :
    Registry :=
  db.map (fun p => (p.1, reResolveEntry resolve now p.2))

/-- `brokenLinks.forEach(link => delete linkDatabase[link.id])`
(server.js lines 325-327). -/
def pruneBroken (broken : List BrokenLink) (db : Registry) : Registry :=
  db.filter (fun p => !(broken.any (fun b => b.id == p.1)))

/-- The registry transformation performed by one non-skipped run of
`refreshAllLinks` (server.js lines 316-347): health-check all entries,
prune the broken ones (the prune and the batched notification only happen
when the broken list is non-empty), then re-resolve the remaining entries.
The GitHub update and the summary log read the registry but do not write
it. -/
def refreshAllLinksDb (remote : String → RemoteOutcome)
    (resolve : String → ConvertResult) (now : Nat) (db : Registry) : Registry :=
  let checked := LinkHealthChecker.checkAllLinks remote now db
  let db1 := if checked.1.isEmpty then db else pruneBroken checked.1 db
  reResolveAll resolve now db1

/-- The mutable module state of server.js (lines 26-29): `refreshTimer`
is modelled as whether a debounce timer is armed. -/
structure ServerState where
  refreshTimer : Bool
  pendingUploads : List (String × LinkEntry)
  linkDatabase : Registry
  isRefreshing : Bool
  deriving DecidableEq

/-- `refreshAllLinks` (server.js lines 305-354) as a state transformer:
when `isRefreshing` is already true it logs a skip and returns before
touching anything; otherwise it sets the guard, runs the cycle on the
registry and finally clears the guard. -/
def refreshAllLinks (remote : String → RemoteOutcome)
    (resolve : String → ConvertResult) (now : Nat) (s : ServerState) : ServerState :=
  if s.isRefreshing then s
  else { s with linkDatabase := refreshAllLinksDb remote resolve now s.linkDatabase,
                isRefreshing := false }

/-! ### Id allocator -/

/-- `String.prototype.padStart(3, &quot;0&quot;)`. -/
def padStart3 (s : String) : String :=
  if s.length < 3 then String.mk (List.replicate (3 - s.length) '0' ++ s.data) else s

/-- `generateLinkId` (server.js lines 382-386): count the registry keys
starting with the type tag, return the tag followed by count + 1 padded
to three digits.  Pending uploads are not counted, and removed entries
lower the count. -/
def generateLinkId (db : Registry) (ty : String) : String :=
  let existing := (db.map Prod.fst).filter (fun id => ty.data.isPrefixOf id.data)
  let nextNum := existing.length + 1
  ty ++ padStart3 (toString nextNum)

/-! ### HTTP handlers and publish data -/

/-- One record of the `results` array returned by the upload endpoint
(server.js lines 430-436). -/
structure UploadResult where
  originalUrl : String
  masterLink : String
  title : String
  linkId : String
  status : String
  deriving DecidableEq

/-- Response of the upload endpoint. -/
inductive UploadResponse where
  | ok (results : List UploadResult)
  | unauthorized
  | badRequest
  deriving DecidableEq

/-- The per-URL loop of the upload handler (server.js lines 404-437).
`getInfo` and `convert` stand for the ytdl-backed calls, `rndAt` for the
random suffix drawn by `LinkEncoder.encode` at each iteration, `db` for
`linkDatabase` - which the loop reads (through `generateLinkId`) but never
writes, pushing only onto `pendingUploads`. -/
def processUploads (getInfo : String → VideoInfo) (convert : String → ConvertResult)
    (rndAt : String → String) (owner repo : String) (now : Nat) (db : Registry) :
    List String → List (String × LinkEntry) × List UploadResult
  | [] => ([], [])
  | url :: rest =>
      let videoInfo := getInfo url
      let streamData := convert url
      let linkId := generateLinkId db "mov"
      let encodedId := LinkEncoder.encode linkId (rndAt url)
      let linkData : LinkEntry :=
        { originalUrl := url, streamUrl := streamData.streamUrl,
          title := videoInfo.title, quality := streamData.quality,
          createdAt := now, lastRefreshed := now,
          isValid := streamData.isValid && videoInfo.isAvailable }
      let tail := processUploads getInfo convert rndAt owner repo now db rest
      ((linkId, linkData) :: tail.1,
       { originalUrl := url,
         masterLink := "https://" ++ owner ++ ".github.io/" ++ repo ++ "/r/" ++ encodedId,
         title := videoInfo.title, linkId := linkId,
         status := if streamData.isValid && videoInfo.isAvailable then "success"
                   else "failed" } :: tail.2)

/-- The upload endpoint (server.js lines 389-452): reject on a password
mismatch, reject when `links` is missing or not an array (modelled as
`none`), otherwise run the loop, append to `pendingUploads`, and re-arm
the debounce timer (`scheduleBatchUpload`, lines 357-379, replaces any
armed timer with a fresh one).  `linkDatabase` is left untouched. -/
def uploadHandler (getInfo : String → VideoInfo) (convert : String → ConvertResult)
    (rndAt : String → String) (owner repo apiPassword : String) (now : Nat)
    (password : String) (links : Option (List String)) (s : ServerState) :
    ServerState × UploadResponse :=
  if password ≠ apiPassword then (s, .unauthorized)
  else
    match links with
    | none => (s, .badRequest)
    | some ls =>
        let processed := processUploads getInfo convert rndAt owner repo now
          s.linkDatabase ls
        ({ s with pendingUploads := s.pendingUploads ++ processed.1,
                  refreshTimer := true },
         .ok processed.2)

/-- The names declared at the top level of server.js (lines 1-29 and the
class and function statements).  Neither LinkCleaner nor ViewTracker is
among them, although the status handler references both. -/
def serverTopLevelNames : List String :=
  ["express", "cron", "axios", "Octokit", "ytdl", "app", "CONFIG", "octokit",
   "refreshTimer", "pendingUploads", "linkDatabase", "isRefreshing",
   "LinkEncoder", "YouTubeConverter", "LinkHealthChecker", "GitHubManager",
   "LogCollector", "refreshAllLinks", "scheduleBatchUpload", "generateLinkId",
   "PORT"]

/-- The JSON payload the status endpoint would build from the state it can
actually reach (server.js lines 457-466). -/
structure StatusResponse where
  totalLinks : Nat
  pendingUploads : Nat
  isRefreshing : Bool
  nextRefresh : String
  deriving DecidableEq

/-- Outcome of running a JS request handler: a value, or a thrown
exception (which express turns into a 500 response). -/
inductive JsOutcome (α : Type) where
  | ok (a : α)
  | thrown (err : String)
  deriving DecidableEq

/-- The status endpoint (server.js lines 454-467).  Its first statement
evaluates `LinkCleaner.getOldLinks()` and the response body evaluates
`ViewTracker.getTotalViews()`; identifier lookup against the declared
top-level names fails for both, so the handler throws a ReferenceError
before producing a response. -/
def statusHandler (s : ServerState) : JsOutcome StatusResponse :=
  if serverTopLevelNames.contains "LinkCleaner" then
    if serverTopLevelNames.contains "ViewTracker" then
      .ok { totalLinks := s.linkDatabase.length,
            pendingUploads := s.pendingUploads.length,
            isRefreshing := s.isRefreshing,
            nextRefresh := if s.refreshTimer then "Scheduled" else "None" }
    else .thrown "ReferenceError: ViewTracker is not defined"
  else .thrown "ReferenceError: LinkCleaner is not defined"

/-- One value of the JSON object published to GitHub (server.js lines
182-186). -/
structure PublishRecord where
  url : Option String
  title : String
  updated : String
  deriving DecidableEq

namespace GitHubManager

/-- The `githubData` object built by `GitHubManager.updateLinksFile`
(server.js lines 179-187): every registry id is re-encoded with a fresh
random suffix (`rndAt` gives the suffix drawn for each id during this
publish). -/
def updateLinksFileData (rndAt : String → String) (nowIso : String) (db : Registry) :
    List (String × PublishRecord) :=
  db.map (fun p =>
    (LinkEncoder.encode p.1 (rndAt p.1),
     { url := p.2.streamUrl, title := p.2.title, updated := nowIso }))

end GitHubManager

/-! ### Concrete sample inputs used by witnesses -/

/-- A healthy sample entry. -/
def goodEntry : LinkEntry :=
  { originalUrl := "https://youtu.be/good", streamUrl := some "http://stream.good",
    title := "Good", quality := "720p", createdAt := 0, lastRefreshed := 0,
    isValid := true }

/-- A sample entry whose stream URL answers 404. -/
def badEntry : LinkEntry :=
  { originalUrl := "https://youtu.be/bad", streamUrl := some "http://stream.bad",
    title := "Bad", quality := "480p", createdAt := 0, lastRefreshed := 0,
    isValid := true }

/-- A sample registry with one healthy and one broken entry. -/
def sampleDb : Registry := [("mov001", goodEntry), ("mov002", badEntry)]

/-- A sample network: the good stream answers 200, everything else 404. -/
def sampleRemote : String → RemoteOutcome :=
  fun u => if u = "http://stream.good" then .responds 200 else .responds 404

/-- A resolution backend that always fails. -/
def failResolve : String → ConvertResult :=
  fun _ => { streamUrl := none, title := "Conversion Failed", quality := "N/A",
             expiresAt := none, isValid := false, error := some "No video format available" }

/-- A resolution backend that always succeeds with a fresh stream URL. -/
def okResolve : String → ConvertResult :=
  fun _ => { streamUrl := some "http://stream.new", title := "Good",
             quality := "1080p", expiresAt := some 21600000, isValid := true,
             error := none }

/-- A video-info backend that always succeeds. -/
def sampleInfo : String → VideoInfo :=
  fun _ => { title := "Video", duration := 10, isAvailable := true, error := none }

/-- The state right after server start: nothing armed, nothing stored. -/
def emptyState : ServerState :=
  { refreshTimer := false, pendingUploads := [], linkDatabase := [],
    isRefreshing := false }

/-- A state in which a cycle is currently running. -/
def busyState : ServerState :=
  { refreshTimer := false, pendingUploads := [], linkDatabase := sampleDb,
    isRefreshing := true }

/-- The broken-list record contributed by one registry entry in
`checkAllLinks`, if any: the per-entry view of the loop body (server.js
lines 134-168).  The bridge lemma `checkAllLinks_broken_eq` proves the
broken list built by `checkAllLinks` is exactly the non-null records of
this function, so every fact below is grounded in `checkAllLinks`
itself. -/
def entryBrokenRecord (remote : String → RemoteOutcome) (linkId : String)
    (linkData : LinkEntry) : Option BrokenLink :=
  if !(strTruthy linkData.streamUrl) then
    some { id := linkId, title := linkData.title, reason := "No stream URL",
           originalUrl := linkData.originalUrl }
  else
    let hc := LinkHealthChecker.checkLink remote (linkData.streamUrl.getD "")
    if hc.isActive then none
    else some { id := linkId, title := linkData.title,
                reason := jsOrStr hc.error ("HTTP " ++ toString hc.status),
                originalUrl := linkData.originalUrl }

/-! ### Codec lemmas -/

theorem take_length_append {α : Type} (l1 l2 : List α) :
    (l1 ++ l2).take l1.length = l1 := by
  induction l1 with
  | nil => rfl
  | cons a t ih => simp [ih]

theorem b64Index_b64char {d : Nat} (h : d < 64) : b64Index (b64char d) = some d := by
  have h64 : ∀ i : Fin 64, b64Index (b64char i.1) = some i.1 := by decide
  exact h64 ⟨d, h⟩

theorem b64char_ne {d : Nat} (h : d < 64) : b64char d ≠ '=' := by
  intro he
  have hi := b64Index_b64char h
  have hn : b64Index '=' = none := by decide
  rw [he, hn] at hi
  cases hi

theorem b64char_bne_eq {d : Nat} (h : d < 64) : (b64char d != '=') = true := by
  simp [bne_iff_ne, b64char_ne h]

theorem filterMap_stripEq_encode3 :
    ∀ l : List Nat, (∀ x ∈ l, x < 256) →
      (stripEq (encode3 l)).filterMap b64Index = toDigits l
  | [], _ => rfl
  | [a], h => by
      have ha : a < 256 := h a (by simp)
      have h1 : a / 4 < 64 := by omega
      have h2 : (a % 4) * 16 < 64 := by omega
      simp [encode3, toDigits, stripEq, b64char_bne_eq h1, b64char_bne_eq h2,
            b64Index_b64char h1, b64Index_b64char h2]
  | [a, b], h => by
      have ha : a < 256 := h a (by simp)
      have hb : b < 256 := h b (by simp)
      have h1 : a / 4 < 64 := by omega
      have h2 : (a % 4) * 16 + b / 16 < 64 := by omega
      have h3 : (b % 16) * 4 < 64 := by omega
      simp [encode3, toDigits, stripEq, b64char_bne_eq h1, b64char_bne_eq h2,
            b64char_bne_eq h3, b64Index_b64char h1, b64Index_b64char h2,
            b64Index_b64char h3]
  | a :: b :: c :: rest, h => by
      have ha : a < 256 := h a (by simp)
      have hb : b < 256 := h b (by simp)
      have hc : c < 256 := h c (by simp)
      have h1 : a / 4 < 64 := by omega
      have h2 : (a % 4) * 16 + b / 16 < 64 := by omega
      have h3 : (b % 16) * 4 + c / 64 < 64 := by omega
      have h4 : c % 64 < 64 := by omega
      have ih := filterMap_stripEq_encode3 rest
        (fun x hx => h x (by simp at hx ⊢; tauto))
      simp only [stripEq] at ih
      simp [encode3, toDigits, stripEq, b64char_bne_eq h1, b64char_bne_eq h2,
            b64char_bne_eq h3, b64char_bne_eq h4, b64Index_b64char h1,
            b64Index_b64char h2, b64Index_b64char h3, b64Index_b64char h4, ih]

theorem decode4_toDigits :
    ∀ l : List Nat, (∀ x ∈ l, x < 256) → decode4 (toDigits l) = l
  | [], _ => rfl
  | [a], h => by
      have ha : a < 256 := h a (by simp)
      simp [toDigits, decode4]
      omega
  | [a, b], h => by
      have ha : a < 256 := h a (by simp)
      have hb : b < 256 := h b (by simp)
      simp [toDigits, decode4]
      omega
  | a :: b :: c :: rest, h => by
      have ha : a < 256 := h a (by simp)
      have hb : b < 256 := h b (by simp)
      have hc : c < 256 := h c (by simp)
      have ih := decode4_toDigits rest
        (fun x hx => h x (by simp at hx ⊢; tauto))
      simp [toDigits, decode4, ih]
      omega

/-- C4 (amended): for every ASCII id and every random suffix of exactly 3
characters, decoding the encoded token recovers exactly the bytes of the
id (the trailing suffix is discarded by the fixed 3-character slice, the
restored padding is consumed leniently, and the base64 digits decode back
to the original bytes).  The code does not guarantee the drawn suffix has
3 characters, so the roundtrip is stated under that extra hypothesis. -/
theorem c4_roundtrip_three_char_suffix (id rnd : String)
    (hascii : ∀ c ∈ id.data, c.toNat < 128) (hrnd : rnd.length = 3) :
    LinkEncoder.decodeBytes (LinkEncoder.encode id rnd) = asciiBytes id := by
  have hb : ∀ x ∈ asciiBytes id, x < 256 := by
    intro x hx
    simp only [asciiBytes, List.mem_map] at hx
    obtain ⟨c, hc, rfl⟩ := hx
    have := hascii c hc
    omega
  have hlen : rnd.data.length = 3 := hrnd
  show decode4
      ((((stripEq (encode3 (asciiBytes id)) ++ rnd.data).take
          ((stripEq (encode3 (asciiBytes id)) ++ rnd.data).length - 3)) ++
        ['=', '=']).filterMap b64Index)
    = asciiBytes id
  rw [List.length_append, hlen, Nat.add_sub_cancel, take_length_append,
      List.filterMap_append,
      (by decide : (['=', '='] : List Char).filterMap b64Index = []),
      List.append_nil, filterMap_stripEq_encode3 _ hb, decode4_toDigits _ hb]

/-- C4 witness: the roundtrip at the concrete id mov001 with the concrete
3-character suffix abc. -/
theorem c4_witness :
    (∀ c ∈ ("mov001" : String).data, c.toNat < 128) ∧
    ("abc" : String).length = 3 ∧
    LinkEncoder.decodeBytes (LinkEncoder.encode "mov001" "abc") = asciiBytes "mov001" :=
  ⟨by decide, by decide,
   c4_roundtrip_three_char_suffix "mov001" "abc" (by decide) (by decide)⟩

/-- C4 counterexample: the claim quantifies over every possible random
suffix, but `Math.random().toString(36).substring(2, 5)` can draw fewer
than 3 characters: `Math.random() = 0.5` gives `(0.5).toString(36) =
&quot;0.i&quot;`, hence the suffix i of length 1.  With that suffix the
token of mov001 is bW92MDAxi, `slice(0, -3)` chops two real base64
characters, and decode returns the bytes of mov0, not mov001. -/
theorem c4_counterexample :
    LinkEncoder.decodeBytes (LinkEncoder.encode "mov001" "i") = asciiBytes "mov0" ∧
    asciiBytes "mov0" ≠ asciiBytes "mov001" := by
  decide

/-- C5 (amended): decode never fails.  Node `Buffer.from(s,
&quot;base64&quot;)` is total, so the catch branch of `LinkEncoder.decode`
is unreachable: the result is never null, and on every token shorter than
4 characters the slice leaves at most one base64 digit, which decodes to
the empty byte string - returned successfully instead of the DecodeError
the claim asks for. -/
theorem c5_decode_total (token : String) :
    LinkEncoder.decode token ≠ none ∧
    (token.length < 4 → LinkEncoder.decode token = some []) := by
  constructor
  · simp [LinkEncoder.decode]
  · intro h
    have h0 : token.data.length - 3 ≤ 1 := by
      have : token.data.length < 4 := h
      omega
    show some (decode4 ((token.data.take (token.data.length - 3) ++
        ['=', '=']).filterMap b64Index)) = some []
    rcases Nat.le_one_iff_eq_zero_or_eq_one.mp h0 with h1 | h1
    · rw [h1]
      simp [decode4, (by decide : b64Index '=' = none)]
    · rw [h1]
      rcases token.data with _ | ⟨c, rest⟩
      · simp [decode4, (by decide : b64Index '=' = none)]
      · simp only [List.take_succ_cons, List.take_zero, List.cons_append,
            List.nil_append, List.filterMap_cons]
        rcases hcase : b64Index c with _ | v
        · simp [hcase, (by decide : b64Index '=' = none), decode4]
        · simp [hcase, (by decide : b64Index '=' = none), decode4]

/-- C5 witness: the token xy is shorter than 4 characters and decodes
successfully to the empty byte string. -/
theorem c5_witness :
    LinkEncoder.decode "xy" ≠ none ∧
    ("xy" : String).length < 4 ∧
    LinkEncoder.decode "xy" = some [] :=
  ⟨(c5_decode_total "xy").1, by decide, (c5_decode_total "xy").2 (by decide)⟩

/-- C5 counterexample: the claim says a token shorter than 4 characters
fails with DecodeError; the token ab instead decodes successfully (to an
empty Buffer, hence the empty string). -/
theorem c5_counterexample : LinkEncoder.decode "ab" = some [] := by
  decide

/-- C10: encode is not deterministic - the same id encoded with two
possible 3-character random draws yields two different tokens - and the
publish step re-encodes every id with a fresh draw, so the key under
which mov001 is published (draw xyz) differs from the public token the
upload call returned for it (draw abc). -/
theorem c10_encode_nondeterministic :
    LinkEncoder.encode "mov001" "abc" ≠ LinkEncoder.encode "mov001" "xyz" ∧
    (GitHubManager.updateLinksFileData (fun _ => "xyz") "2026-10-12T00:00:00.000Z"
        [("mov001", goodEntry)]).map Prod.fst = [LinkEncoder.encode "mov001" "xyz"] ∧
    LinkEncoder.encode "mov001" "abc" ∉
      (GitHubManager.updateLinksFileData (fun _ => "xyz") "2026-10-12T00:00:00.000Z"
        [("mov001", goodEntry)]).map Prod.fst := by
  refine ⟨by decide, by decide, by decide⟩

/-! ### Refresh cycle lemmas -/

theorem checkAllLinks_broken_eq (remote : String → RemoteOutcome) (now : Nat) :
    ∀ db : Registry,
      (LinkHealthChecker.checkAllLinks remote now db).1 =
        db.filterMap (fun p => entryBrokenRecord remote p.1 p.2)
  | [] => rfl
  | (hid, he) :: rest => by
      have ih := checkAllLinks_broken_eq remote now rest
      cases hs : strTruthy he.streamUrl
      · simp [LinkHealthChecker.checkAllLinks, entryBrokenRecord, hs,
              List.filterMap_cons, ih]
      · cases hact : (LinkHealthChecker.checkLink remote (he.streamUrl.getD "")).isActive
        · simp [LinkHealthChecker.checkAllLinks, entryBrokenRecord, hs, hact,
                List.filterMap_cons, ih]
        · simp [LinkHealthChecker.checkAllLinks, entryBrokenRecord, hs, hact,
                List.filterMap_cons, ih]

theorem bad_entryBrokenRecord (remote : String → RemoteOutcome) (id : String)
    (e : LinkEntry)
    (hbad : strTruthy e.streamUrl = false ∨
      (LinkHealthChecker.checkLink remote (e.streamUrl.getD "")).isActive = false) :
    ∃ r, entryBrokenRecord remote id e = some r ∧ r.id = id := by
  cases hs : strTruthy e.streamUrl
  · exact ⟨{ id := id, title := e.title, reason := "No stream URL",
             originalUrl := e.originalUrl },
           by simp [entryBrokenRecord, hs], rfl⟩
  · have hact : (LinkHealthChecker.checkLink remote (e.streamUrl.getD "")).isActive
        = false := by
      rcases hbad with h | h
      · rw [hs] at h; cases h
      · exact h
    exact ⟨{ id := id, title := e.title,
             reason := jsOrStr (LinkHealthChecker.checkLink remote
                 (e.streamUrl.getD "")).error
               ("HTTP " ++ toString (LinkHealthChecker.checkLink remote
                 (e.streamUrl.getD "")).status),
             originalUrl := e.originalUrl },
           by simp [entryBrokenRecord, hs, hact], rfl⟩

theorem mem_broken_of_bad (remote : String → RemoteOutcome) (now : Nat)
    (db : Registry) (id : String) (e : LinkEntry) (hmem : (id, e) ∈ db)
    (hbad : strTruthy e.streamUrl = false ∨
      (LinkHealthChecker.checkLink remote (e.streamUrl.getD "")).isActive = false) :
    ∃ b ∈ (LinkHealthChecker.checkAllLinks remote now db).1, b.id = id := by
  rw [checkAllLinks_broken_eq]
  obtain ⟨r, hr, hrid⟩ := bad_entryBrokenRecord remote id e hbad
  exact ⟨r, List.mem_filterMap.mpr ⟨(id, e), hmem, hr⟩, hrid⟩

theorem good_of_not_broken (remote : String → RemoteOutcome) (now : Nat)
    (db : Registry) (id : String) (e : LinkEntry) (hmem : (id, e) ∈ db)
    (hno : ∀ b ∈ (LinkHealthChecker.checkAllLinks remote now db).1, b.id ≠ id) :
    strTruthy e.streamUrl = true ∧
      (LinkHealthChecker.checkLink remote (e.streamUrl.getD "")).isActive = true := by
  cases hs : strTruthy e.streamUrl
  · obtain ⟨b, hb, hbid⟩ := mem_broken_of_bad remote now db id e hmem (Or.inl hs)
    exact absurd hbid (by simpa using hno b hb)
  · cases hact : (LinkHealthChecker.checkLink remote (e.streamUrl.getD "")).isActive
    · obtain ⟨b, hb, hbid⟩ := mem_broken_of_bad remote now db id e hmem (Or.inr hact)
      exact absurd hbid (by simpa using hno b hb)
    · exact ⟨rfl, rfl⟩

theorem mem_pruneBroken (broken : List BrokenLink) (db : Registry) (id : String)
    (e : LinkEntry) :
    (id, e) ∈ pruneBroken broken db ↔ (id, e) ∈ db ∧ ∀ b ∈ broken, b.id ≠ id := by
  simp [pruneBroken, List.mem_filter]

theorem mem_reResolveAll (resolve : String → ConvertResult) (now : Nat)
    (db : Registry) (id : String) (e : LinkEntry) :
    (id, e) ∈ reResolveAll resolve now db ↔
      ∃ e0, (id, e0) ∈ db ∧ e = reResolveEntry resolve now e0 := by
  simp only [reResolveAll, List.mem_map]
  constructor
  · rintro ⟨⟨a, b⟩, hmem, heq⟩
    injection heq with h1 h2
    subst h1
    exact ⟨b, hmem, h2.symm⟩
  · rintro ⟨e0, hmem, rfl⟩
    exact ⟨(id, e0), hmem, rfl⟩

theorem reResolveAll_keys (resolve : String → ConvertResult) (now : Nat) :
    ∀ db : Registry, (reResolveAll resolve now db).map Prod.fst = db.map Prod.fst
  | [] => rfl
  | p :: rest => by
      simp [reResolveAll, reResolveAll_keys resolve now rest]

/-- C1: after one run of the refresh cycle, every entry remaining in the
registry either had a successful health probe during that cycle, or was
absent from the registry when the cycle began; and every entry whose
probe failed or whose streamUrl was falsy at the start of the health
phase is gone from the resulting registry (removed by the prune phase,
and the re-resolution phase removes nothing). -/
theorem c1_refresh_cycle_postcondition (remote : String → RemoteOutcome)
    (resolve : String → ConvertResult) (now : Nat) (db : Registry) :
    (∀ id e, (id, e) ∈ refreshAllLinksDb remote resolve now db →
       (∃ e0, (id, e0) ∈ db ∧ strTruthy e0.streamUrl = true ∧
          (LinkHealthChecker.checkLink remote (e0.streamUrl.getD "")).isActive = true) ∨
       (∀ e1, (id, e1) ∉ db)) ∧
    (∀ id e0, (id, e0) ∈ db →
       (strTruthy e0.streamUrl = false ∨
        (LinkHealthChecker.checkLink remote (e0.streamUrl.getD "")).isActive = false) →
       ∀ e, (id, e) ∉ refreshAllLinksDb remote resolve now db) := by
  constructor
  · intro id e hmem
    left
    simp only [refreshAllLinksDb] at hmem
    rw [mem_reResolveAll] at hmem
    obtain ⟨e0, he0, _⟩ := hmem
    by_cases hemp : ((LinkHealthChecker.checkAllLinks remote now db).1.isEmpty = true)
    · rw [if_pos hemp] at he0
      refine ⟨e0, he0, good_of_not_broken remote now db id e0 he0 ?_⟩
      rw [List.isEmpty_iff.mp hemp]
      intro b hb
      cases hb
    · rw [if_neg hemp] at he0
      rw [mem_pruneBroken] at he0
      exact ⟨e0, he0.1, good_of_not_broken remote now db id e0 he0.1 he0.2⟩
  · intro id e0 hmem hbad e hin
    obtain ⟨b, hb, hbid⟩ := mem_broken_of_bad remote now db id e0 hmem hbad
    simp only [refreshAllLinksDb] at hin
    rw [mem_reResolveAll] at hin
    obtain ⟨e1, he1, _⟩ := hin
    by_cases hemp : ((LinkHealthChecker.checkAllLinks remote now db).1.isEmpty = true)
    · rw [List.isEmpty_iff.mp hemp] at hb
      cases hb
    · rw [if_neg hemp] at he1
      rw [mem_pruneBroken] at he1
      exact he1.2 b hb hbid

/-- C1 witness: in the sample registry the good entry survives the cycle
because its probe answered 200, and the 404 entry is gone afterwards. -/
theorem c1_witness :
    ((∃ e0, ("mov001", e0) ∈ sampleDb ∧ strTruthy e0.streamUrl = true ∧
        (LinkHealthChecker.checkLink sampleRemote (e0.streamUrl.getD "")).isActive
          = true) ∨
      (∀ e1, ("mov001", e1) ∉ sampleDb)) ∧
    (∀ e, ("mov002", e) ∉ refreshAllLinksDb sampleRemote failResolve 7 sampleDb) :=
  ⟨(c1_refresh_cycle_postcondition sampleRemote failResolve 7 sampleDb).1 "mov001"
     (reResolveEntry failResolve 7 goodEntry) (by decide),
   (c1_refresh_cycle_postcondition sampleRemote failResolve 7 sampleDb).2 "mov002"
     badEntry (by decide) (by decide)⟩

/-- C2: the re-resolution phase never adds or removes a key; for every
entry with a truthy originalUrl, a valid resolution overwrites streamUrl
and lastRefreshed, and a failed resolution leaves the entry exactly as it
was - re-resolution failure alone never deletes an entry. -/
theorem c2_reresolution_preserves_entries (resolve : String → ConvertResult)
    (now : Nat) (db : Registry) :
    (reResolveAll resolve now db).map Prod.fst = db.map Prod.fst ∧
    (∀ id e, (id, e) ∈ db → e.originalUrl ≠ "" →
      (((resolve e.originalUrl).isValid = true →
        (id, { e with
                 streamUrl := (resolve e.originalUrl).streamUrl,
                 lastRefreshed := now }) ∈ reResolveAll resolve now db) ∧
       ((resolve e.originalUrl).isValid = false →
        (id, e) ∈ reResolveAll resolve now db))) := by
  refine ⟨reResolveAll_keys resolve now db, ?_⟩
  intro id e hmem hurl
  constructor
  · intro hv
    have hin : (id, reResolveEntry resolve now e) ∈ reResolveAll resolve now db :=
      List.mem_map_of_mem _ hmem
    have he : reResolveEntry resolve now e =
        { e with
            streamUrl := (resolve e.originalUrl).streamUrl,
            lastRefreshed := now } := by
      simp [reResolveEntry, hurl, hv]
    rwa [he] at hin
  · intro hv
    have hin : (id, reResolveEntry resolve now e) ∈ reResolveAll resolve now db :=
      List.mem_map_of_mem _ hmem
    have he : reResolveEntry resolve now e = e := by
      simp [reResolveEntry, hurl, hv]
    rwa [he] at hin

/-- C2 witness: with a succeeding resolution backend, the good sample
entry is re-resolved in place - still present under mov001, with the
fresh stream URL and the new timestamp. -/
theorem c2_witness :
    goodEntry.originalUrl ≠ "" ∧
    (okResolve goodEntry.originalUrl).isValid = true ∧
    ("mov001", { goodEntry with
                   streamUrl := some "http://stream.new",
                   lastRefreshed := 9 }) ∈ reResolveAll okResolve 9 sampleDb :=
  ⟨by decide, by decide,
   ((c2_reresolution_preserves_entries okResolve 9 sampleDb).2 "mov001" goodEntry
     (by decide) (by decide)).1 (by decide)⟩

/-- C3: a call to refreshAllLinks while isRefreshing is true returns
immediately with the whole state - registry, pending uploads, timer,
guard - unchanged; the concurrent trigger is dropped. -/
theorem c3_guard_no_mutation (remote : String → RemoteOutcome)
    (resolve : String → ConvertResult) (now : Nat) (s : ServerState)
    (h : s.isRefreshing = true) :
    refreshAllLinks remote resolve now s = s := by
  simp [refreshAllLinks, h]

/-- C3 witness: the guard at a concrete busy state. -/
theorem c3_witness :
    busyState.isRefreshing = true ∧
    refreshAllLinks sampleRemote failResolve 3 busyState = busyState :=
  ⟨rfl, c3_guard_no_mutation sampleRemote failResolve 3 busyState rfl⟩

/-- C6: the count-based allocator reuses ids.  Starting from an empty
registry: the first allocation yields mov001; after inserting it, the
next allocation yields mov002; after inserting mov002 and then removing
mov001, the count drops back to 1 and the allocator returns mov002 again
- an id that was already issued (and is still live in the registry). -/
theorem c6_id_reuse_eval :
    generateLinkId [] "mov" = "mov001" ∧
    generateLinkId [("mov001", goodEntry)] "mov" = "mov002" ∧
    (([("mov001", goodEntry), ("mov002", badEntry)] : Registry).filter
        (fun p => p.1 != "mov001")) = [("mov002", badEntry)] ∧
    generateLinkId [("mov002", badEntry)] "mov" = "mov002" := by
  refine ⟨by decide, by decide, by decide, by decide⟩

/-- C7: a 3-URL batch with the valid credential.  `generateLinkId` counts
only registry keys and the loop adds only to `pendingUploads`, so all
three pending submissions receive the identical id mov001 instead of the
sequential mov001, mov002, mov003 the claim asks for.  The registry
itself is untouched by the upload call, as the claim says. -/
theorem c7_duplicate_ids_eval :
    ((uploadHandler sampleInfo okResolve (fun _ => "abc") "owner" "repo"
        "secret-password" 0 "secret-password" (some ["u1", "u2", "u3"])
        emptyState).1.pendingUploads.map Prod.fst
      = ["mov001", "mov001", "mov001"]) ∧
    ((uploadHandler sampleInfo okResolve (fun _ => "abc") "owner" "repo"
        "secret-password" 0 "secret-password" (some ["u1", "u2", "u3"])
        emptyState).1.linkDatabase = emptyState.linkDatabase) := by
  refine ⟨by decide, by decide⟩

/-- C8: every request to the status endpoint throws.  The handler begins
with `LinkCleaner.getOldLinks()` and LinkCleaner is not among the
top-level declarations of server.js, so the lookup raises a
ReferenceError on every request (express answers 500), for any server
state whatsoever - the endpoint never returns the status payload. -/
theorem c8_status_always_throws (s : ServerState) :
    statusHandler s = .thrown "ReferenceError: LinkCleaner is not defined" := by
  unfold statusHandler
  rw [if_neg (by decide)]

/-- C9 (amended): the probe result has reachable (isActive) true exactly
when the remote responds with status 200 - not merely a success-class
status - and any transport failure or timeout yields reachable false
with the failure message captured; checkLink is a total function by
construction, so it never throws. -/
theorem c9_reachable_iff_200 (remote : String → RemoteOutcome) (url : String) :
    ((LinkHealthChecker.checkLink remote url).isActive = true ↔
      remote url = RemoteOutcome.responds 200) ∧
    (∀ msg, remote url = RemoteOutcome.transportFails msg →
      (LinkHealthChecker.checkLink remote url).isActive = false ∧
      (LinkHealthChecker.checkLink remote url).error = some msg) := by
  constructor
  · cases h : remote url with
    | responds s =>
        by_cases hr : 200 ≤ s ∧ s < 300
        · simp [LinkHealthChecker.checkLink, h, hr]
        · simp [LinkHealthChecker.checkLink, h, hr]
          omega
    | transportFails msg =>
        simp [LinkHealthChecker.checkLink, h]
  · intro msg hm
    simp [LinkHealthChecker.checkLink, hm]

/-- C9 witness: a timed-out probe at a concrete URL comes back as a value
with reachable false and the timeout message captured. -/
theorem c9_witness :
    (LinkHealthChecker.checkLink
        (fun _ => RemoteOutcome.transportFails "timeout of 10000ms exceeded")
        "http://stream.slow").isActive = false ∧
    (LinkHealthChecker.checkLink
        (fun _ => RemoteOutcome.transportFails "timeout of 10000ms exceeded")
        "http://stream.slow").error = some "timeout of 10000ms exceeded" :=
  (c9_reachable_iff_200
    (fun _ => RemoteOutcome.transportFails "timeout of 10000ms exceeded")
    "http://stream.slow").2 "timeout of 10000ms exceeded" rfl

/-- C9 counterexample: 204 No Content is a success status (2xx, so the
axios HEAD request resolves), yet checkLink reports the link as not
reachable because the code tests `status === 200` - refuting reachable
iff the remote responds with a success status. -/
theorem c9_counterexample :
    (200 ≤ 204 ∧ 204 < 300) ∧
    (LinkHealthChecker.checkLink (fun _ => RemoteOutcome.responds 204)
        "http://stream.nocontent").isActive = false := by
  refine ⟨by decide, by decide⟩
